import Mathlib

/-!
Verification of the constraint-to-potential evaluation engine of the
ipc-toolkit collision-constraint module (`src/collision_constraint.cpp`),
together with the smooth-friction mollifier bindings
(`python/src/friction/smooth_friction_mollifier.cpp`).

The external collaborators (the scalar barrier primitive and its
derivatives, the primitive-pair distance functions and their
derivatives, the edge-edge mollifier, the PSD projection) are modelled
as function parameters over an abstract point type `P`, exactly as the
spec declares them out of scope.  Scalars are modelled as `ℚ`; local
gradient vectors are `Fin n → ℚ` and local Hessians are
`Matrix (Fin n) (Fin n) ℚ` for an arbitrary stencil size `n`.
-/

/-- Distance-type tags for point-edge closest-point classification,
mirroring `ipc::PointEdgeDistanceType`. -/
inductive PointEdgeDistanceType where
  | P_E0
  | P_E1
  | P_E
deriving DecidableEq, Repr

/-- Distance-type tags for point-triangle closest-point classification,
mirroring `ipc::PointTriangleDistanceType`. -/
inductive PointTriangleDistanceType where
  | P_T0
  | P_T1
  | P_T2
  | P_E0
  | P_E1
  | P_E2
  | P_T
deriving DecidableEq, Repr

/-- Identity payload of `ipc::VertexVertexConstraint`: two vertex
indices, the collapsed-constraint multiplicity, and the inherited
`CollisionConstraint::minimum_distance` member. -/
structure VertexVertexConstraint where
  vertex0_index : ℕ
  vertex1_index : ℕ
  multiplicity : ℕ
  minimum_distance : ℚ
deriving DecidableEq

/-- Identity payload of `ipc::EdgeVertexConstraint`. -/
structure EdgeVertexConstraint where
  edge_index : ℕ
  vertex_index : ℕ
  multiplicity : ℕ
  minimum_distance : ℚ
deriving DecidableEq

/-- Identity payload of `ipc::EdgeEdgeConstraint`: two edge indices and
the mollifier parameter `eps_x` fixed at construction. -/
structure EdgeEdgeConstraint where
  edge0_index : ℕ
  edge1_index : ℕ
  eps_x : ℚ
  minimum_distance : ℚ
deriving DecidableEq

/-- Identity payload of `ipc::FaceVertexConstraint`. -/
structure FaceVertexConstraint where
  face_index : ℕ
  vertex_index : ℕ
  minimum_distance : ℚ
deriving DecidableEq

/-- Identity payload of `ipc::PlaneVertexConstraint`: a plane origin
and normal (points of the abstract ambient type `P`) plus one vertex
index. -/
structure PlaneVertexConstraint (P : Type) where
  plane_origin : P
  plane_normal : P
  vertex_index : ℕ
  minimum_distance : ℚ

section PotentialEngine

variable {P EEType : Type} {n : ℕ}
variable (barrier barrier_gradient barrier_hessian : ℚ → ℚ → ℚ)
variable (project_to_psd : Matrix (Fin n) (Fin n) ℚ → Matrix (Fin n) (Fin n) ℚ)
variable (point_point_distance : P → P → ℚ)
variable (point_point_distance_gradient : P → P → (Fin n → ℚ))
variable (point_point_distance_hessian : P → P → Matrix (Fin n) (Fin n) ℚ)
variable (point_edge_distance : P → P → P → PointEdgeDistanceType → ℚ)
variable (point_edge_distance_gradient : P → P → P → PointEdgeDistanceType → (Fin n → ℚ))
variable (point_edge_distance_hessian : P → P → P → PointEdgeDistanceType → Matrix (Fin n) (Fin n) ℚ)
variable (point_triangle_distance : P → P → P → P → PointTriangleDistanceType → ℚ)
variable (point_triangle_distance_gradient : P → P → P → P → PointTriangleDistanceType → (Fin n → ℚ))
variable (point_triangle_distance_hessian : P → P → P → P → PointTriangleDistanceType → Matrix (Fin n) (Fin n) ℚ)
variable (point_plane_distance : P → P → P → ℚ)
variable (point_plane_distance_gradient : P → P → P → (Fin n → ℚ))
variable (point_plane_distance_hessian : P → P → P → Matrix (Fin n) (Fin n) ℚ)
variable (edge_edge_distance_type : P → P → P → P → EEType)
variable (edge_edge_distance_untyped : P → P → P → P → ℚ)
variable (edge_edge_distance : P → P → P → P → EEType → ℚ)
variable (edge_edge_distance_gradient : P → P → P → P → EEType → (Fin n → ℚ))
variable (edge_edge_distance_hessian : P → P → P → P → EEType → Matrix (Fin n) (Fin n) ℚ)
variable (edge_edge_mollifier : P → P → P → P → ℚ → ℚ)
variable (edge_edge_mollifier_gradient : P → P → P → P → ℚ → (Fin n → ℚ))
variable (edge_edge_mollifier_hessian : P → P → P → P → ℚ → Matrix (Fin n) (Fin n) ℚ)

/-- `CollisionConstraint::compute_potential_common`: the shared barrier
adapter.  `distance` is whatever scalar the caller supplies (the
primitive distance routines of the library return squared distances);
the adapter subtracts `minimum_distance²` from it and evaluates the
external barrier at activation threshold
`2·minimum_distance·dhat + dhat²`. -/
def compute_potential_common (minimum_distance distance dhat : ℚ) : ℚ :=
  let dhat_squared := dhat * dhat
  barrier (distance - minimum_distance * minimum_distance)
    (2 * minimum_distance * dhat + dhat_squared)

/-- `CollisionConstraint::compute_potential_gradient_common`:
`∇b(d(x)) = b'(d(x)) · ∇d(x)`. -/
def compute_potential_gradient_common (minimum_distance distance : ℚ)
    (distance_grad : Fin n → ℚ) (dhat : ℚ) : Fin n → ℚ :=
  let dhat_squared := dhat * dhat
  let grad_b := barrier_gradient
    (distance - minimum_distance * minimum_distance)
    (2 * minimum_distance * dhat + dhat_squared)
  grad_b • distance_grad

/-- `CollisionConstraint::compute_potential_hessian_common`:
`b''(d)·∇d·∇dᵀ + b'(d)·∇²d`, with the PSD projection applied (when
requested) to the `b'(d)·∇²d` addend only. -/
def compute_potential_hessian_common (minimum_distance distance : ℚ)
    (distance_grad : Fin n → ℚ) (distance_hess : Matrix (Fin n) (Fin n) ℚ)
    (dhat : ℚ) (project_hessian_to_psd : Bool) : Matrix (Fin n) (Fin n) ℚ :=
  let dhat_squared := dhat * dhat
  let min_dist_squrared := minimum_distance * minimum_distance
  let grad_b := barrier_gradient (distance - min_dist_squrared)
    (2 * minimum_distance * dhat + dhat_squared)
  let hess_b := barrier_hessian (distance - min_dist_squrared)
    (2 * minimum_distance * dhat + dhat_squared)
  hess_b • Matrix.vecMulVec distance_grad distance_grad +
    (if project_hessian_to_psd then project_to_psd (grad_b • distance_hess)
     else grad_b • distance_hess)

/-- `VertexVertexConstraint::compute_potential`. -/
def VertexVertexConstraint.compute_potential (c : VertexVertexConstraint)
    (Vrow : ℕ → P) (dhat : ℚ) : ℚ :=
  let distance := point_point_distance (Vrow c.vertex0_index) (Vrow c.vertex1_index)
  (c.multiplicity : ℚ) *
    compute_potential_common barrier c.minimum_distance distance dhat

/-- `VertexVertexConstraint::compute_potential_gradient`. -/
def VertexVertexConstraint.compute_potential_gradient (c : VertexVertexConstraint)
    (Vrow : ℕ → P) (dhat : ℚ) : Fin n → ℚ :=
  let p0 := Vrow c.vertex0_index
  let p1 := Vrow c.vertex1_index
  let distance_grad := point_point_distance_gradient p0 p1
  let distance := point_point_distance p0 p1
  (c.multiplicity : ℚ) •
    compute_potential_gradient_common barrier_gradient c.minimum_distance
      distance distance_grad dhat

/-- `VertexVertexConstraint::compute_potential_hessian`. -/
def VertexVertexConstraint.compute_potential_hessian (c : VertexVertexConstraint)
    (Vrow : ℕ → P) (dhat : ℚ) (project_hessian_to_psd : Bool) :
    Matrix (Fin n) (Fin n) ℚ :=
  let p0 := Vrow c.vertex0_index
  let p1 := Vrow c.vertex1_index
  let distance := point_point_distance p0 p1
  let distance_grad := point_point_distance_gradient p0 p1
  let distance_hess := point_point_distance_hessian p0 p1
  (c.multiplicity : ℚ) •
    compute_potential_hessian_common barrier_gradient barrier_hessian
      project_to_psd c.minimum_distance distance distance_grad distance_hess
      dhat project_hessian_to_psd

/-- `EdgeVertexConstraint::compute_potential`: the distance type is
hardcoded to `P_E` because `construct_constraint_set()` established it. -/
def EdgeVertexConstraint.compute_potential (c : EdgeVertexConstraint)
    (Vrow : ℕ → P) (Eidx : ℕ → ℕ → ℕ) (dhat : ℚ) : ℚ :=
  let distance := point_edge_distance (Vrow c.vertex_index)
    (Vrow (Eidx c.edge_index 0)) (Vrow (Eidx c.edge_index 1))
    PointEdgeDistanceType.P_E
  (c.multiplicity : ℚ) *
    compute_potential_common barrier c.minimum_distance distance dhat

/-- `EdgeVertexConstraint::compute_potential_gradient`. -/
def EdgeVertexConstraint.compute_potential_gradient (c : EdgeVertexConstraint)
    (Vrow : ℕ → P) (Eidx : ℕ → ℕ → ℕ) (dhat : ℚ) : Fin n → ℚ :=
  let p := Vrow c.vertex_index
  let e0 := Vrow (Eidx c.edge_index 0)
  let e1 := Vrow (Eidx c.edge_index 1)
  let distance_grad := point_edge_distance_gradient p e0 e1 PointEdgeDistanceType.P_E
  let distance := point_edge_distance p e0 e1 PointEdgeDistanceType.P_E
  (c.multiplicity : ℚ) •
    compute_potential_gradient_common barrier_gradient c.minimum_distance
      distance distance_grad dhat

/-- `EdgeVertexConstraint::compute_potential_hessian`. -/
def EdgeVertexConstraint.compute_potential_hessian (c : EdgeVertexConstraint)
    (Vrow : ℕ → P) (Eidx : ℕ → ℕ → ℕ) (dhat : ℚ)
    (project_hessian_to_psd : Bool) : Matrix (Fin n) (Fin n) ℚ :=
  let p := Vrow c.vertex_index
  let e0 := Vrow (Eidx c.edge_index 0)
  let e1 := Vrow (Eidx c.edge_index 1)
  let distance := point_edge_distance p e0 e1 PointEdgeDistanceType.P_E
  let distance_grad := point_edge_distance_gradient p e0 e1 PointEdgeDistanceType.P_E
  let distance_hess := point_edge_distance_hessian p e0 e1 PointEdgeDistanceType.P_E
  (c.multiplicity : ℚ) •
    compute_potential_hessian_common barrier_gradient barrier_hessian
      project_to_psd c.minimum_distance distance distance_grad distance_hess
      dhat project_hessian_to_psd

/-- `EdgeEdgeConstraint::compute_potential`: mollifier times the common
barrier potential, with the untyped edge-edge distance overload. -/
def EdgeEdgeConstraint.compute_potential (c : EdgeEdgeConstraint)
    (Vrow : ℕ → P) (Eidx : ℕ → ℕ → ℕ) (dhat : ℚ) : ℚ :=
  let ea0 := Vrow (Eidx c.edge0_index 0)
  let ea1 := Vrow (Eidx c.edge0_index 1)
  let eb0 := Vrow (Eidx c.edge1_index 0)
  let eb1 := Vrow (Eidx c.edge1_index 1)
  let distance := edge_edge_distance_untyped ea0 ea1 eb0 eb1
  edge_edge_mollifier ea0 ea1 eb0 eb1 c.eps_x *
    compute_potential_common barrier c.minimum_distance distance dhat

/-- `EdgeEdgeConstraint::compute_potential_gradient`: the distance type
is recomputed per call via the classifier, and the result is the full
product rule `∇m(x)·b(d(x)) + m(x)·b'(d(x))·∇d(x)`. -/
def EdgeEdgeConstraint.compute_potential_gradient (c : EdgeEdgeConstraint)
    (Vrow : ℕ → P) (Eidx : ℕ → ℕ → ℕ) (dhat : ℚ) : Fin n → ℚ :=
  let dhat_squared := dhat * dhat
  let ea0 := Vrow (Eidx c.edge0_index 0)
  let ea1 := Vrow (Eidx c.edge0_index 1)
  let eb0 := Vrow (Eidx c.edge1_index 0)
  let eb1 := Vrow (Eidx c.edge1_index 1)
  let dtype := edge_edge_distance_type ea0 ea1 eb0 eb1
  let distance := edge_edge_distance ea0 ea1 eb0 eb1 dtype
  let distance_grad := edge_edge_distance_gradient ea0 ea1 eb0 eb1 dtype
  let mollifier := edge_edge_mollifier ea0 ea1 eb0 eb1 c.eps_x
  let mollifier_grad := edge_edge_mollifier_gradient ea0 ea1 eb0 eb1 c.eps_x
  let b := barrier (distance - c.minimum_distance * c.minimum_distance)
    (2 * c.minimum_distance * dhat + dhat_squared)
  let barrier_distance_grad :=
    compute_potential_gradient_common barrier_gradient c.minimum_distance
      distance distance_grad dhat
  b • mollifier_grad + mollifier • barrier_distance_grad

/-- `EdgeEdgeConstraint::compute_potential_hessian`: full product-rule
expansion of `∇²[m(x)·b(d(x))]`; when requested, the PSD projection is
applied to the entire summed Hessian. -/
def EdgeEdgeConstraint.compute_potential_hessian (c : EdgeEdgeConstraint)
    (Vrow : ℕ → P) (Eidx : ℕ → ℕ → ℕ) (dhat : ℚ)
    (project_hessian_to_psd : Bool) : Matrix (Fin n) (Fin n) ℚ :=
  let dhat_squared := dhat * dhat
  let min_dist_squrared := c.minimum_distance * c.minimum_distance
  let ea0 := Vrow (Eidx c.edge0_index 0)
  let ea1 := Vrow (Eidx c.edge0_index 1)
  let eb0 := Vrow (Eidx c.edge1_index 0)
  let eb1 := Vrow (Eidx c.edge1_index 1)
  let dtype := edge_edge_distance_type ea0 ea1 eb0 eb1
  let distance := edge_edge_distance ea0 ea1 eb0 eb1 dtype
  let distance_grad := edge_edge_distance_gradient ea0 ea1 eb0 eb1 dtype
  let distance_hess := edge_edge_distance_hessian ea0 ea1 eb0 eb1 dtype
  let mollifier := edge_edge_mollifier ea0 ea1 eb0 eb1 c.eps_x
  let mollifier_grad := edge_edge_mollifier_gradient ea0 ea1 eb0 eb1 c.eps_x
  let mollifier_hess := edge_edge_mollifier_hessian ea0 ea1 eb0 eb1 c.eps_x
  let b := barrier (distance - min_dist_squrared)
    (2 * c.minimum_distance * dhat + dhat_squared)
  let grad_b := barrier_gradient (distance - min_dist_squrared)
    (2 * c.minimum_distance * dhat + dhat_squared)
  let hess_b := barrier_hessian (distance - min_dist_squrared)
    (2 * c.minimum_distance * dhat + dhat_squared)
  let hess := b • mollifier_hess +
    grad_b • (Matrix.vecMulVec distance_grad mollifier_grad +
      Matrix.vecMulVec mollifier_grad distance_grad) +
    mollifier • (hess_b • Matrix.vecMulVec distance_grad distance_grad +
      grad_b • distance_hess)
  if project_hessian_to_psd then project_to_psd hess else hess

/-- `FaceVertexConstraint::compute_potential`: the distance type is
hardcoded to `P_T`. -/
def FaceVertexConstraint.compute_potential (c : FaceVertexConstraint)
    (Vrow : ℕ → P) (Fidx : ℕ → ℕ → ℕ) (dhat : ℚ) : ℚ :=
  let distance := point_triangle_distance (Vrow c.vertex_index)
    (Vrow (Fidx c.face_index 0)) (Vrow (Fidx c.face_index 1))
    (Vrow (Fidx c.face_index 2)) PointTriangleDistanceType.P_T
  compute_potential_common barrier c.minimum_distance distance dhat

/-- `FaceVertexConstraint::compute_potential_gradient`. -/
def FaceVertexConstraint.compute_potential_gradient (c : FaceVertexConstraint)
    (Vrow : ℕ → P) (Fidx : ℕ → ℕ → ℕ) (dhat : ℚ) : Fin n → ℚ :=
  let p := Vrow c.vertex_index
  let t0 := Vrow (Fidx c.face_index 0)
  let t1 := Vrow (Fidx c.face_index 1)
  let t2 := Vrow (Fidx c.face_index 2)
  let distance := point_triangle_distance p t0 t1 t2 PointTriangleDistanceType.P_T
  let distance_grad :=
    point_triangle_distance_gradient p t0 t1 t2 PointTriangleDistanceType.P_T
  compute_potential_gradient_common barrier_gradient c.minimum_distance
    distance distance_grad dhat

/-- `FaceVertexConstraint::compute_potential_hessian`. -/
def FaceVertexConstraint.compute_potential_hessian (c : FaceVertexConstraint)
    (Vrow : ℕ → P) (Fidx : ℕ → ℕ → ℕ) (dhat : ℚ)
    (project_hessian_to_psd : Bool) : Matrix (Fin n) (Fin n) ℚ :=
  let p := Vrow c.vertex_index
  let t0 := Vrow (Fidx c.face_index 0)
  let t1 := Vrow (Fidx c.face_index 1)
  let t2 := Vrow (Fidx c.face_index 2)
  let distance := point_triangle_distance p t0 t1 t2 PointTriangleDistanceType.P_T
  let distance_grad :=
    point_triangle_distance_gradient p t0 t1 t2 PointTriangleDistanceType.P_T
  let distance_hess :=
    point_triangle_distance_hessian p t0 t1 t2 PointTriangleDistanceType.P_T
  compute_potential_hessian_common barrier_gradient barrier_hessian
    project_to_psd c.minimum_distance distance distance_grad distance_hess
    dhat project_hessian_to_psd

/-- `PlaneVertexConstraint::compute_potential`. -/
def PlaneVertexConstraint.compute_potential (c : PlaneVertexConstraint P)
    (Vrow : ℕ → P) (dhat : ℚ) : ℚ :=
  let distance :=
    point_plane_distance (Vrow c.vertex_index) c.plane_origin c.plane_normal
  compute_potential_common barrier c.minimum_distance distance dhat

/-- `PlaneVertexConstraint::compute_potential_gradient`. -/
def PlaneVertexConstraint.compute_potential_gradient (c : PlaneVertexConstraint P)
    (Vrow : ℕ → P) (dhat : ℚ) : Fin n → ℚ :=
  let p := Vrow c.vertex_index
  let distance := point_plane_distance p c.plane_origin c.plane_normal
  let distance_grad :=
    point_plane_distance_gradient p c.plane_origin c.plane_normal
  compute_potential_gradient_common barrier_gradient c.minimum_distance
    distance distance_grad dhat

/-- `PlaneVertexConstraint::compute_potential_hessian`. -/
def PlaneVertexConstraint.compute_potential_hessian (c : PlaneVertexConstraint P)
    (Vrow : ℕ → P) (dhat : ℚ) (project_hessian_to_psd : Bool) :
    Matrix (Fin n) (Fin n) ℚ :=
  let p := Vrow c.vertex_index
  let distance := point_plane_distance p c.plane_origin c.plane_normal
  let distance_grad :=
    point_plane_distance_gradient p c.plane_origin c.plane_normal
  let distance_hess :=
    point_plane_distance_hessian p c.plane_origin c.plane_normal
  compute_potential_hessian_common barrier_gradient barrier_hessian
    project_to_psd c.minimum_distance distance distance_grad distance_hess
    dhat project_hessian_to_psd

end PotentialEngine

/-- Closed sum over the five constraint variants, the element type of
the heterogeneous constraint set (`ipc::Constraints` stores five
separate sequences; `operator[]` exposes their concatenation). -/
inductive ConstraintVariant (P : Type) where
  | vv (c : VertexVertexConstraint)
  | ev (c : EdgeVertexConstraint)
  | ee (c : EdgeEdgeConstraint)
  | fv (c : FaceVertexConstraint)
  | pv (c : PlaneVertexConstraint P)

/-- `ipc::Constraints`: five ordered sequences, one per variant. -/
structure Constraints (P : Type) where
  vv_constraints : List VertexVertexConstraint
  ev_constraints : List EdgeVertexConstraint
  ee_constraints : List EdgeEdgeConstraint
  fv_constraints : List FaceVertexConstraint
  pv_constraints : List (PlaneVertexConstraint P)

/-- `Constraints::size`: raw instance count across the five sequences. -/
def Constraints.size {P : Type} (s : Constraints P) : ℕ :=
  s.vv_constraints.length + s.ev_constraints.length + s.ee_constraints.length
    + s.fv_constraints.length + s.pv_constraints.length

/-- `Constraints::num_constraints`: accumulate VertexVertex and
EdgeVertex multiplicities, then add the raw counts of the remaining
three sequences. -/
def Constraints.num_constraints {P : Type} (s : Constraints P) : ℕ :=
  let nc0 : ℕ := 0
  let nc1 := s.vv_constraints.foldl (fun acc c => acc + c.multiplicity) nc0
  let nc2 := s.ev_constraints.foldl (fun acc c => acc + c.multiplicity) nc1
  nc2 + (s.ee_constraints.length + s.fv_constraints.length
    + s.pv_constraints.length)

/-- `Constraints::empty`: conjunction of the five sequence emptiness
checks. -/
def Constraints.empty {P : Type} (s : Constraints P) : Bool :=
  s.vv_constraints.isEmpty && s.ev_constraints.isEmpty
    && s.ee_constraints.isEmpty && s.fv_constraints.isEmpty
    && s.pv_constraints.isEmpty

/-- `Constraints::clear`: drops all five sequences. -/
def Constraints.clear {P : Type} (_ : Constraints P) : Constraints P :=
  { vv_constraints := [], ev_constraints := [], ee_constraints := [],
    fv_constraints := [], pv_constraints := [] }

/-- `Constraints::operator[] const`: sequential range subtraction over
the five sequences in the fixed order VertexVertex, EdgeVertex,
EdgeEdge, FaceVertex, PlaneVertex, including the source's initial
`idx < 0` check on the unsigned index. -/
def Constraints.index {P : Type} (s : Constraints P) (idx : ℕ) :
    Except String (ConstraintVariant P) :=
  if idx < 0 then
    Except.error "Constraint index is out of range!"
  else if h1 : idx < s.vv_constraints.length then
    Except.ok (ConstraintVariant.vv (s.vv_constraints.get ⟨idx, h1⟩))
  else
    let idx2 := idx - s.vv_constraints.length
    if h2 : idx2 < s.ev_constraints.length then
      Except.ok (ConstraintVariant.ev (s.ev_constraints.get ⟨idx2, h2⟩))
    else
      let idx3 := idx2 - s.ev_constraints.length
      if h3 : idx3 < s.ee_constraints.length then
        Except.ok (ConstraintVariant.ee (s.ee_constraints.get ⟨idx3, h3⟩))
      else
        let idx4 := idx3 - s.ee_constraints.length
        if h4 : idx4 < s.fv_constraints.length then
          Except.ok (ConstraintVariant.fv (s.fv_constraints.get ⟨idx4, h4⟩))
        else
          let idx5 := idx4 - s.fv_constraints.length
          if h5 : idx5 < s.pv_constraints.length then
            Except.ok (ConstraintVariant.pv (s.pv_constraints.get ⟨idx5, h5⟩))
          else
            Except.error "Constraint index is out of range!"

/-- `Constraints::operator[]` (non-const overload): identical traversal;
the returned pair makes explicit that the container state after the
call — error or not — is the input state: the operator only reads. -/
def Constraints.indexMut {P : Type} (s : Constraints P) (idx : ℕ) :
    Except String (ConstraintVariant P) × Constraints P :=
  if idx < 0 then
    (Except.error "Constraint index is out of range!", s)
  else if h1 : idx < s.vv_constraints.length then
    (Except.ok (ConstraintVariant.vv (s.vv_constraints.get ⟨idx, h1⟩)), s)
  else
    let idx2 := idx - s.vv_constraints.length
    if h2 : idx2 < s.ev_constraints.length then
      (Except.ok (ConstraintVariant.ev (s.ev_constraints.get ⟨idx2, h2⟩)), s)
    else
      let idx3 := idx2 - s.ev_constraints.length
      if h3 : idx3 < s.ee_constraints.length then
        (Except.ok (ConstraintVariant.ee (s.ee_constraints.get ⟨idx3, h3⟩)), s)
      else
        let idx4 := idx3 - s.ee_constraints.length
        if h4 : idx4 < s.fv_constraints.length then
          (Except.ok (ConstraintVariant.fv (s.fv_constraints.get ⟨idx4, h4⟩)), s)
        else
          let idx5 := idx4 - s.fv_constraints.length
          if h5 : idx5 < s.pv_constraints.length then
            (Except.ok (ConstraintVariant.pv (s.pv_constraints.get ⟨idx5, h5⟩)), s)
          else
            (Except.error "Constraint index is out of range!", s)

/-- The same traversal with the dead `idx < 0` branch removed: the
reference behaviour the spec says an implementation should keep. -/
def Constraints.indexNoDeadBranch {P : Type} (s : Constraints P) (idx : ℕ) :
    Except String (ConstraintVariant P) :=
  if h1 : idx < s.vv_constraints.length then
    Except.ok (ConstraintVariant.vv (s.vv_constraints.get ⟨idx, h1⟩))
  else
    let idx2 := idx - s.vv_constraints.length
    if h2 : idx2 < s.ev_constraints.length then
      Except.ok (ConstraintVariant.ev (s.ev_constraints.get ⟨idx2, h2⟩))
    else
      let idx3 := idx2 - s.ev_constraints.length
      if h3 : idx3 < s.ee_constraints.length then
        Except.ok (ConstraintVariant.ee (s.ee_constraints.get ⟨idx3, h3⟩))
      else
        let idx4 := idx3 - s.ee_constraints.length
        if h4 : idx4 < s.fv_constraints.length then
          Except.ok (ConstraintVariant.fv (s.fv_constraints.get ⟨idx4, h4⟩))
        else
          let idx5 := idx4 - s.fv_constraints.length
          if h5 : idx5 < s.pv_constraints.length then
            Except.ok (ConstraintVariant.pv (s.pv_constraints.get ⟨idx5, h5⟩))
          else
            Except.error "Constraint index is out of range!"

/-- The concatenation of the five sequences in the fixed order, as a
single list of tagged variants. -/
def Constraints.flatten {P : Type} (s : Constraints P) :
    List (ConstraintVariant P) :=
  s.vv_constraints.map ConstraintVariant.vv
    ++ (s.ev_constraints.map ConstraintVariant.ev
    ++ (s.ee_constraints.map ConstraintVariant.ee
    ++ (s.fv_constraints.map ConstraintVariant.fv
    ++ s.pv_constraints.map ConstraintVariant.pv)))

/-- Checked division: `none` exactly when the denominator is zero.
Used to make any division by zero in the friction mollifier formulas
observable. -/
def cdiv (a b : ℚ) : Option ℚ :=
  if b = 0 then none else some (a / b)

/-- Modelled from the spec: the implementation of `smooth_friction_f0`
is not part of the sources (only its binding and docstring are); the
docstring formula is `−s³/(3ε²) + s²/ε + ε/3` for `|s| < ε` and `s`
otherwise. -/
def smooth_friction_f0 (s epsv : ℚ) : Option ℚ :=
  if |s| < epsv then do
    let t1 ← cdiv (s ^ 3) (3 * epsv ^ 2)
    let t2 ← cdiv (s ^ 2) epsv
    let t3 ← cdiv epsv 3
    some (-t1 + t2 + t3)
  else
    some s

/-- Modelled from the spec: the implementation of
`smooth_friction_f1_over_x` is not part of the sources; the docstring
formula is `−s/ε² + 2/ε` for `|s| < ε` and `1/s` otherwise. -/
def smooth_friction_f1_over_x (s epsv : ℚ) : Option ℚ :=
  if |s| < epsv then do
    let t1 ← cdiv s (epsv ^ 2)
    let t2 ← cdiv 2 epsv
    some (-t1 + t2)
  else
    cdiv 1 s

/-- Modelled from the spec: the implementation of
`smooth_friction_f2_x_minus_f1_over_x3` is not part of the sources; the
docstring formula is `−1/(s·ε²)` for `|s| < ε` and `−1/s³` otherwise. -/
def smooth_friction_f2_x_minus_f1_over_x3 (s epsv : ℚ) : Option ℚ :=
  if |s| < epsv then
    cdiv (-1) (s * epsv ^ 2)
  else
    cdiv (-1) (s ^ 3)

section PotentialTheorems

variable {P EEType : Type} {n : ℕ}
variable (barrier barrier_gradient barrier_hessian : ℚ → ℚ → ℚ)
variable (project_to_psd : Matrix (Fin n) (Fin n) ℚ → Matrix (Fin n) (Fin n) ℚ)
variable (point_point_distance : P → P → ℚ)
variable (point_point_distance_gradient : P → P → (Fin n → ℚ))
variable (point_point_distance_hessian : P → P → Matrix (Fin n) (Fin n) ℚ)
variable (point_edge_distance : P → P → P → PointEdgeDistanceType → ℚ)
variable (point_edge_distance_gradient : P → P → P → PointEdgeDistanceType → (Fin n → ℚ))
variable (point_edge_distance_hessian : P → P → P → PointEdgeDistanceType → Matrix (Fin n) (Fin n) ℚ)
variable (point_triangle_distance : P → P → P → P → PointTriangleDistanceType → ℚ)
variable (point_plane_distance : P → P → P → ℚ)
variable (edge_edge_distance_type : P → P → P → P → EEType)
variable (edge_edge_distance_untyped : P → P → P → P → ℚ)
variable (edge_edge_distance : P → P → P → P → EEType → ℚ)
variable (edge_edge_distance_gradient : P → P → P → P → EEType → (Fin n → ℚ))
variable (edge_edge_distance_hessian : P → P → P → P → EEType → Matrix (Fin n) (Fin n) ℚ)
variable (edge_edge_mollifier : P → P → P → P → ℚ → ℚ)
variable (edge_edge_mollifier_gradient : P → P → P → P → ℚ → (Fin n → ℚ))
variable (edge_edge_mollifier_hessian : P → P → P → P → ℚ → Matrix (Fin n) (Fin n) ℚ)

/-- **C1** (counterexample): with the external barrier instantiated as
`(x, t) ↦ x`, `minimum_distance = 0`, `distance = 2`, `dhat = 1`, the
adapter returns the barrier applied to the incoming distance value
(`2 − 0² = 2`), not to its square (`2² − 0² = 4`) as the claim asserts:
no squaring happens inside the adapter. -/
theorem C1_counterexample_no_internal_squaring :
    compute_potential_common (fun x _ => x) 0 2 1 ≠
      (fun (x : ℚ) (_ : ℚ) => x) ((2 : ℚ) ^ 2 - 0 ^ 2) (2 * 0 * 1 + 1 ^ 2) := by
  norm_num [compute_potential_common]

/-- **C1** (amended): for every constraint variant, the shared barrier
adapter satisfies `compute_potential_common(d, dhat) =
barrier(d − minimum_distance², 2·minimum_distance·dhat + dhat²)`: the
incoming `d` (the value produced by the external primitive distance
routine, which is a squared distance) is passed through without being
squared inside the adapter, and every variant's `compute_potential`
feeds its primitive distance value straight into the adapter. -/
theorem C1_adapter_passes_distance_unsquared
    (minimum_distance distance dhat : ℚ) (cvv : VertexVertexConstraint)
    (cev : EdgeVertexConstraint) (cee : EdgeEdgeConstraint)
    (cfv : FaceVertexConstraint) (cpv : PlaneVertexConstraint P)
    (Vrow : ℕ → P) (Eidx Fidx : ℕ → ℕ → ℕ) :
    compute_potential_common barrier minimum_distance distance dhat =
      barrier (distance - minimum_distance ^ 2)
        (2 * minimum_distance * dhat + dhat ^ 2) ∧
    VertexVertexConstraint.compute_potential barrier point_point_distance
        cvv Vrow dhat =
      (cvv.multiplicity : ℚ) *
        barrier (point_point_distance (Vrow cvv.vertex0_index)
            (Vrow cvv.vertex1_index) - cvv.minimum_distance ^ 2)
          (2 * cvv.minimum_distance * dhat + dhat ^ 2) ∧
    EdgeVertexConstraint.compute_potential barrier point_edge_distance
        cev Vrow Eidx dhat =
      (cev.multiplicity : ℚ) *
        barrier (point_edge_distance (Vrow cev.vertex_index)
            (Vrow (Eidx cev.edge_index 0)) (Vrow (Eidx cev.edge_index 1))
            PointEdgeDistanceType.P_E - cev.minimum_distance ^ 2)
          (2 * cev.minimum_distance * dhat + dhat ^ 2) ∧
    EdgeEdgeConstraint.compute_potential barrier edge_edge_distance_untyped
        edge_edge_mollifier cee Vrow Eidx dhat =
      edge_edge_mollifier (Vrow (Eidx cee.edge0_index 0))
          (Vrow (Eidx cee.edge0_index 1)) (Vrow (Eidx cee.edge1_index 0))
          (Vrow (Eidx cee.edge1_index 1)) cee.eps_x *
        barrier (edge_edge_distance_untyped (Vrow (Eidx cee.edge0_index 0))
            (Vrow (Eidx cee.edge0_index 1)) (Vrow (Eidx cee.edge1_index 0))
            (Vrow (Eidx cee.edge1_index 1)) - cee.minimum_distance ^ 2)
          (2 * cee.minimum_distance * dhat + dhat ^ 2) ∧
    FaceVertexConstraint.compute_potential barrier point_triangle_distance
        cfv Vrow Fidx dhat =
      barrier (point_triangle_distance (Vrow cfv.vertex_index)
          (Vrow (Fidx cfv.face_index 0)) (Vrow (Fidx cfv.face_index 1))
          (Vrow (Fidx cfv.face_index 2)) PointTriangleDistanceType.P_T
          - cfv.minimum_distance ^ 2)
        (2 * cfv.minimum_distance * dhat + dhat ^ 2) ∧
    PlaneVertexConstraint.compute_potential barrier point_plane_distance
        cpv Vrow dhat =
      barrier (point_plane_distance (Vrow cpv.vertex_index) cpv.plane_origin
          cpv.plane_normal - cpv.minimum_distance ^ 2)
        (2 * cpv.minimum_distance * dhat + dhat ^ 2) := by
  refine ⟨?_, ?_, ?_, ?_, ?_, ?_⟩ <;>
    simp [compute_potential_common, VertexVertexConstraint.compute_potential,
      EdgeVertexConstraint.compute_potential,
      EdgeEdgeConstraint.compute_potential,
      FaceVertexConstraint.compute_potential,
      PlaneVertexConstraint.compute_potential, pow_two]

/-- **C3**: the EdgeEdge gradient is the full product rule
`∇m(x)·B(d(x)) + m(x)·B'(d(x))·∇d(x)` — both terms present — where the
edge-edge distance type used for the distance and its gradient is
recomputed per call by the external distance-type classifier on the
current endpoint positions. -/
theorem C3_edge_edge_gradient_product_rule
    (c : EdgeEdgeConstraint) (Vrow : ℕ → P) (Eidx : ℕ → ℕ → ℕ) (dhat : ℚ) :
    EdgeEdgeConstraint.compute_potential_gradient barrier barrier_gradient
        edge_edge_distance_type edge_edge_distance edge_edge_distance_gradient
        edge_edge_mollifier edge_edge_mollifier_gradient c Vrow Eidx dhat =
      (let ea0 := Vrow (Eidx c.edge0_index 0)
       let ea1 := Vrow (Eidx c.edge0_index 1)
       let eb0 := Vrow (Eidx c.edge1_index 0)
       let eb1 := Vrow (Eidx c.edge1_index 1)
       let dtype := edge_edge_distance_type ea0 ea1 eb0 eb1
       let d := edge_edge_distance ea0 ea1 eb0 eb1 dtype
       let x := d - c.minimum_distance ^ 2
       let t := 2 * c.minimum_distance * dhat + dhat ^ 2
       barrier x t • edge_edge_mollifier_gradient ea0 ea1 eb0 eb1 c.eps_x +
         edge_edge_mollifier ea0 ea1 eb0 eb1 c.eps_x •
           (barrier_gradient x t •
             edge_edge_distance_gradient ea0 ea1 eb0 eb1 dtype)) := by
  simp [EdgeEdgeConstraint.compute_potential_gradient,
    compute_potential_gradient_common, pow_two]

/-- **C2**: the EdgeEdge Hessian is the full product-rule expansion
`∇²m·B + B'·(∇d·∇mᵀ + ∇m·∇dᵀ) + m·(B''·∇d·∇dᵀ + B'·∇²d)` and, when
`project_hessian_to_psd` is set, the PSD projection is applied to the
entire summed Hessian, not to any individual term. -/
theorem C2_edge_edge_hessian_full_product_rule
    (c : EdgeEdgeConstraint) (Vrow : ℕ → P) (Eidx : ℕ → ℕ → ℕ) (dhat : ℚ)
    (project_hessian_to_psd : Bool) :
    EdgeEdgeConstraint.compute_potential_hessian barrier barrier_gradient
        barrier_hessian project_to_psd edge_edge_distance_type
        edge_edge_distance edge_edge_distance_gradient
        edge_edge_distance_hessian edge_edge_mollifier
        edge_edge_mollifier_gradient edge_edge_mollifier_hessian
        c Vrow Eidx dhat project_hessian_to_psd =
      (let ea0 := Vrow (Eidx c.edge0_index 0)
       let ea1 := Vrow (Eidx c.edge0_index 1)
       let eb0 := Vrow (Eidx c.edge1_index 0)
       let eb1 := Vrow (Eidx c.edge1_index 1)
       let dtype := edge_edge_distance_type ea0 ea1 eb0 eb1
       let d := edge_edge_distance ea0 ea1 eb0 eb1 dtype
       let dg := edge_edge_distance_gradient ea0 ea1 eb0 eb1 dtype
       let dh := edge_edge_distance_hessian ea0 ea1 eb0 eb1 dtype
       let m := edge_edge_mollifier ea0 ea1 eb0 eb1 c.eps_x
       let mg := edge_edge_mollifier_gradient ea0 ea1 eb0 eb1 c.eps_x
       let mh := edge_edge_mollifier_hessian ea0 ea1 eb0 eb1 c.eps_x
       let x := d - c.minimum_distance ^ 2
       let t := 2 * c.minimum_distance * dhat + dhat ^ 2
       let hess := barrier x t • mh +
         barrier_gradient x t •
           (Matrix.vecMulVec dg mg + Matrix.vecMulVec mg dg) +
         m • (barrier_hessian x t • Matrix.vecMulVec dg dg +
           barrier_gradient x t • dh)
       if project_hessian_to_psd then project_to_psd hess else hess) := by
  simp [EdgeEdgeConstraint.compute_potential_hessian, pow_two]

/-- **C4**: for the unmollified variants the Hessian composition is
`B''·∇d·∇dᵀ + B'·∇²d` with the PSD projection (when requested) applied
only to the `B'·∇²d` addend, never to the `B''·∇d·∇dᵀ` term; and all
four unmollified variants (VertexVertex and EdgeVertex up to their
multiplicity scale, FaceVertex and PlaneVertex exactly) route through
this shared composition with the flag passed along unchanged. -/
theorem C4_unmollified_hessian_projects_second_term_only
    (minimum_distance distance : ℚ) (distance_grad : Fin n → ℚ)
    (distance_hess : Matrix (Fin n) (Fin n) ℚ) (dhat : ℚ)
    (cvv : VertexVertexConstraint) (cev : EdgeVertexConstraint)
    (cfv : FaceVertexConstraint) (cpv : PlaneVertexConstraint P)
    (Vrow : ℕ → P) (Eidx Fidx : ℕ → ℕ → ℕ)
    (project_hessian_to_psd : Bool)
    (point_triangle_distance_gradient :
      P → P → P → P → PointTriangleDistanceType → (Fin n → ℚ))
    (point_triangle_distance_hessian :
      P → P → P → P → PointTriangleDistanceType → Matrix (Fin n) (Fin n) ℚ)
    (point_plane_distance_gradient : P → P → P → (Fin n → ℚ))
    (point_plane_distance_hessian : P → P → P → Matrix (Fin n) (Fin n) ℚ) :
    compute_potential_hessian_common barrier_gradient barrier_hessian
        project_to_psd minimum_distance distance distance_grad distance_hess
        dhat true =
      barrier_hessian (distance - minimum_distance ^ 2)
          (2 * minimum_distance * dhat + dhat ^ 2) •
          Matrix.vecMulVec distance_grad distance_grad +
        project_to_psd (barrier_gradient (distance - minimum_distance ^ 2)
          (2 * minimum_distance * dhat + dhat ^ 2) • distance_hess) ∧
    compute_potential_hessian_common barrier_gradient barrier_hessian
        project_to_psd minimum_distance distance distance_grad distance_hess
        dhat false =
      barrier_hessian (distance - minimum_distance ^ 2)
          (2 * minimum_distance * dhat + dhat ^ 2) •
          Matrix.vecMulVec distance_grad distance_grad +
        barrier_gradient (distance - minimum_distance ^ 2)
          (2 * minimum_distance * dhat + dhat ^ 2) • distance_hess ∧
    VertexVertexConstraint.compute_potential_hessian barrier_gradient
        barrier_hessian project_to_psd point_point_distance
        point_point_distance_gradient point_point_distance_hessian
        cvv Vrow dhat project_hessian_to_psd =
      (cvv.multiplicity : ℚ) •
        compute_potential_hessian_common barrier_gradient barrier_hessian
          project_to_psd cvv.minimum_distance
          (point_point_distance (Vrow cvv.vertex0_index) (Vrow cvv.vertex1_index))
          (point_point_distance_gradient (Vrow cvv.vertex0_index)
            (Vrow cvv.vertex1_index))
          (point_point_distance_hessian (Vrow cvv.vertex0_index)
            (Vrow cvv.vertex1_index))
          dhat project_hessian_to_psd ∧
    EdgeVertexConstraint.compute_potential_hessian barrier_gradient
        barrier_hessian project_to_psd point_edge_distance
        point_edge_distance_gradient point_edge_distance_hessian
        cev Vrow Eidx dhat project_hessian_to_psd =
      (cev.multiplicity : ℚ) •
        compute_potential_hessian_common barrier_gradient barrier_hessian
          project_to_psd cev.minimum_distance
          (point_edge_distance (Vrow cev.vertex_index)
            (Vrow (Eidx cev.edge_index 0)) (Vrow (Eidx cev.edge_index 1))
            PointEdgeDistanceType.P_E)
          (point_edge_distance_gradient (Vrow cev.vertex_index)
            (Vrow (Eidx cev.edge_index 0)) (Vrow (Eidx cev.edge_index 1))
            PointEdgeDistanceType.P_E)
          (point_edge_distance_hessian (Vrow cev.vertex_index)
            (Vrow (Eidx cev.edge_index 0)) (Vrow (Eidx cev.edge_index 1))
            PointEdgeDistanceType.P_E)
          dhat project_hessian_to_psd ∧
    FaceVertexConstraint.compute_potential_hessian barrier_gradient
        barrier_hessian project_to_psd point_triangle_distance
        point_triangle_distance_gradient point_triangle_distance_hessian
        cfv Vrow Fidx dhat project_hessian_to_psd =
      compute_potential_hessian_common barrier_gradient barrier_hessian
        project_to_psd cfv.minimum_distance
        (point_triangle_distance (Vrow cfv.vertex_index)
          (Vrow (Fidx cfv.face_index 0)) (Vrow (Fidx cfv.face_index 1))
          (Vrow (Fidx cfv.face_index 2)) PointTriangleDistanceType.P_T)
        (point_triangle_distance_gradient (Vrow cfv.vertex_index)
          (Vrow (Fidx cfv.face_index 0)) (Vrow (Fidx cfv.face_index 1))
          (Vrow (Fidx cfv.face_index 2)) PointTriangleDistanceType.P_T)
        (point_triangle_distance_hessian (Vrow cfv.vertex_index)
          (Vrow (Fidx cfv.face_index 0)) (Vrow (Fidx cfv.face_index 1))
          (Vrow (Fidx cfv.face_index 2)) PointTriangleDistanceType.P_T)
        dhat project_hessian_to_psd ∧
    PlaneVertexConstraint.compute_potential_hessian barrier_gradient
        barrier_hessian project_to_psd point_plane_distance
        point_plane_distance_gradient point_plane_distance_hessian
        cpv Vrow dhat project_hessian_to_psd =
      compute_potential_hessian_common barrier_gradient barrier_hessian
        project_to_psd cpv.minimum_distance
        (point_plane_distance (Vrow cpv.vertex_index) cpv.plane_origin
          cpv.plane_normal)
        (point_plane_distance_gradient (Vrow cpv.vertex_index) cpv.plane_origin
          cpv.plane_normal)
        (point_plane_distance_hessian (Vrow cpv.vertex_index) cpv.plane_origin
          cpv.plane_normal)
        dhat project_hessian_to_psd := by
  refine ⟨?_, ?_, rfl, rfl, rfl, rfl⟩ <;>
    simp [compute_potential_hessian_common, pow_two]

/-- **C7**: VertexVertex and EdgeVertex potential, gradient and Hessian
are each exactly the multiplicity times the unscaled barrier-adapter
composition of the variant's own distance-function derivatives (`P_E`
typed point-edge for EdgeVertex, point-point for VertexVertex). -/
theorem C7_multiplicity_scales_all_three
    (cvv : VertexVertexConstraint) (cev : EdgeVertexConstraint)
    (Vrow : ℕ → P) (Eidx : ℕ → ℕ → ℕ) (dhat : ℚ)
    (project_hessian_to_psd : Bool) :
    VertexVertexConstraint.compute_potential barrier point_point_distance
        cvv Vrow dhat =
      (cvv.multiplicity : ℚ) *
        compute_potential_common barrier cvv.minimum_distance
          (point_point_distance (Vrow cvv.vertex0_index) (Vrow cvv.vertex1_index))
          dhat ∧
    VertexVertexConstraint.compute_potential_gradient barrier_gradient
        point_point_distance point_point_distance_gradient cvv Vrow dhat =
      (cvv.multiplicity : ℚ) •
        compute_potential_gradient_common barrier_gradient cvv.minimum_distance
          (point_point_distance (Vrow cvv.vertex0_index) (Vrow cvv.vertex1_index))
          (point_point_distance_gradient (Vrow cvv.vertex0_index)
            (Vrow cvv.vertex1_index))
          dhat ∧
    VertexVertexConstraint.compute_potential_hessian barrier_gradient
        barrier_hessian project_to_psd point_point_distance
        point_point_distance_gradient point_point_distance_hessian
        cvv Vrow dhat project_hessian_to_psd =
      (cvv.multiplicity : ℚ) •
        compute_potential_hessian_common barrier_gradient barrier_hessian
          project_to_psd cvv.minimum_distance
          (point_point_distance (Vrow cvv.vertex0_index) (Vrow cvv.vertex1_index))
          (point_point_distance_gradient (Vrow cvv.vertex0_index)
            (Vrow cvv.vertex1_index))
          (point_point_distance_hessian (Vrow cvv.vertex0_index)
            (Vrow cvv.vertex1_index))
          dhat project_hessian_to_psd ∧
    EdgeVertexConstraint.compute_potential barrier point_edge_distance
        cev Vrow Eidx dhat =
      (cev.multiplicity : ℚ) *
        compute_potential_common barrier cev.minimum_distance
          (point_edge_distance (Vrow cev.vertex_index)
            (Vrow (Eidx cev.edge_index 0)) (Vrow (Eidx cev.edge_index 1))
            PointEdgeDistanceType.P_E)
          dhat ∧
    EdgeVertexConstraint.compute_potential_gradient barrier_gradient
        point_edge_distance point_edge_distance_gradient cev Vrow Eidx dhat =
      (cev.multiplicity : ℚ) •
        compute_potential_gradient_common barrier_gradient cev.minimum_distance
          (point_edge_distance (Vrow cev.vertex_index)
            (Vrow (Eidx cev.edge_index 0)) (Vrow (Eidx cev.edge_index 1))
            PointEdgeDistanceType.P_E)
          (point_edge_distance_gradient (Vrow cev.vertex_index)
            (Vrow (Eidx cev.edge_index 0)) (Vrow (Eidx cev.edge_index 1))
            PointEdgeDistanceType.P_E)
          dhat ∧
    EdgeVertexConstraint.compute_potential_hessian barrier_gradient
        barrier_hessian project_to_psd point_edge_distance
        point_edge_distance_gradient point_edge_distance_hessian
        cev Vrow Eidx dhat project_hessian_to_psd =
      (cev.multiplicity : ℚ) •
        compute_potential_hessian_common barrier_gradient barrier_hessian
          project_to_psd cev.minimum_distance
          (point_edge_distance (Vrow cev.vertex_index)
            (Vrow (Eidx cev.edge_index 0)) (Vrow (Eidx cev.edge_index 1))
            PointEdgeDistanceType.P_E)
          (point_edge_distance_gradient (Vrow cev.vertex_index)
            (Vrow (Eidx cev.edge_index 0)) (Vrow (Eidx cev.edge_index 1))
            PointEdgeDistanceType.P_E)
          (point_edge_distance_hessian (Vrow cev.vertex_index)
            (Vrow (Eidx cev.edge_index 0)) (Vrow (Eidx cev.edge_index 1))
            PointEdgeDistanceType.P_E)
          dhat project_hessian_to_psd := by
  exact ⟨rfl, rfl, rfl, rfl, rfl, rfl⟩

end PotentialTheorems

lemma list_foldl_add_eq {α : Type} (f : α → ℕ) (l : List α) (init : ℕ) :
    l.foldl (fun acc c => acc + f c) init = init + (l.map f).sum := by
  induction l generalizing init with
  | nil => simp
  | cons a t ih =>
    simp only [List.foldl_cons, ih, List.map_cons, List.sum_cons]
    omega

lemma list_length_le_sum {α : Type} (f : α → ℕ) :
    ∀ (l : List α), (∀ c ∈ l, 1 ≤ f c) → l.length ≤ (l.map f).sum := by
  intro l
  induction l with
  | nil => simp
  | cons a t ih =>
    intro h
    have ha := h a (by simp)
    have ht := ih (fun c hc => h c (by simp [hc]))
    simp only [List.length_cons, List.map_cons, List.sum_cons]
    omega

lemma sum_map_eq_length_iff {α : Type} (f : α → ℕ) :
    ∀ (l : List α), (∀ c ∈ l, 1 ≤ f c) →
      ((l.map f).sum = l.length ↔ ∀ c ∈ l, f c = 1) := by
  intro l
  induction l with
  | nil => simp
  | cons a t ih =>
    intro h
    have ha : 1 ≤ f a := h a (by simp)
    have ht : ∀ c ∈ t, 1 ≤ f c := fun c hc => h c (by simp [hc])
    have hlen := list_length_le_sum f t ht
    have iht := ih ht
    simp only [List.map_cons, List.sum_cons, List.length_cons, List.mem_cons]
    constructor
    · intro he
      have hfa : f a = 1 := by omega
      have hsum : (t.map f).sum = t.length := by omega
      intro c hc
      rcases hc with hc | hc
      · rw [hc]; exact hfa
      · exact (iht.mp hsum) c hc
    · intro hall
      have hfa : f a = 1 := hall a (Or.inl rfl)
      have hsum : (t.map f).sum = t.length :=
        iht.mpr (fun c hc => hall c (Or.inr hc))
      omega

lemma num_constraints_eq {P : Type} (s : Constraints P) :
    s.num_constraints =
      (s.vv_constraints.map VertexVertexConstraint.multiplicity).sum +
      (s.ev_constraints.map EdgeVertexConstraint.multiplicity).sum +
      s.ee_constraints.length + s.fv_constraints.length +
      s.pv_constraints.length := by
  simp only [Constraints.num_constraints, list_foldl_add_eq]
  omega

/-- **C5**: `size()` is the sum of the five sequence lengths;
`num_constraints()` is the multiplicity-weighted count with EdgeEdge,
FaceVertex and PlaneVertex weighted 1; under multiplicities ≥ 1 the
weighted count dominates the raw count, with equality exactly when
every VertexVertex/EdgeVertex multiplicity is 1. -/
theorem C5_size_vs_num_constraints {P : Type} (s : Constraints P)
    (h1 : ∀ c ∈ s.vv_constraints, 1 ≤ c.multiplicity)
    (h2 : ∀ c ∈ s.ev_constraints, 1 ≤ c.multiplicity) :
    (s.size = s.vv_constraints.length + s.ev_constraints.length +
      s.ee_constraints.length + s.fv_constraints.length +
      s.pv_constraints.length) ∧
    (s.num_constraints =
      (s.vv_constraints.map VertexVertexConstraint.multiplicity).sum +
      (s.ev_constraints.map EdgeVertexConstraint.multiplicity).sum +
      s.ee_constraints.length + s.fv_constraints.length +
      s.pv_constraints.length) ∧
    s.size ≤ s.num_constraints ∧
    (s.num_constraints = s.size ↔
      (∀ c ∈ s.vv_constraints, c.multiplicity = 1) ∧
      (∀ c ∈ s.ev_constraints, c.multiplicity = 1)) := by
  have hnum := num_constraints_eq s
  have hvvle := list_length_le_sum VertexVertexConstraint.multiplicity
    s.vv_constraints h1
  have hevle := list_length_le_sum EdgeVertexConstraint.multiplicity
    s.ev_constraints h2
  have hvviff := sum_map_eq_length_iff VertexVertexConstraint.multiplicity
    s.vv_constraints h1
  have heviff := sum_map_eq_length_iff EdgeVertexConstraint.multiplicity
    s.ev_constraints h2
  refine ⟨rfl, hnum, ?_, ?_⟩
  · rw [hnum]
    simp only [Constraints.size]
    omega
  · rw [hnum]
    simp only [Constraints.size]
    constructor
    · intro he
      exact ⟨hvviff.mp (by omega), heviff.mp (by omega)⟩
    · rintro ⟨ha, hb⟩
      have hva := hvviff.mpr ha
      have hvb := heviff.mpr hb
      omega

/-- Witness for C5 at a concrete two-element container with a
multiplicity-2 VertexVertex constraint. -/
theorem C5_size_vs_num_constraints_witness :
    ((∀ c ∈ ([⟨0, 1, 2, 0⟩] : List VertexVertexConstraint), 1 ≤ c.multiplicity) ∧
     (∀ c ∈ ([⟨0, 2, 1, 0⟩] : List EdgeVertexConstraint), 1 ≤ c.multiplicity)) ∧
    Constraints.size (P := Unit) ⟨[⟨0, 1, 2, 0⟩], [⟨0, 2, 1, 0⟩], [], [], []⟩ ≤
      Constraints.num_constraints (P := Unit)
        ⟨[⟨0, 1, 2, 0⟩], [⟨0, 2, 1, 0⟩], [], [], []⟩ :=
  ⟨⟨by decide, by decide⟩,
   (C5_size_vs_num_constraints (P := Unit)
     ⟨[⟨0, 1, 2, 0⟩], [⟨0, 2, 1, 0⟩], [], [], []⟩
     (by decide) (by decide)).2.2.1⟩

lemma flatten_length {P : Type} (s : Constraints P) :
    s.flatten.length = s.size := by
  simp only [Constraints.flatten, Constraints.size, List.length_append,
    List.length_map]
  omega

lemma index_eq_flatten_lookup {P : Type} (s : Constraints P) (idx : ℕ) :
    s.index idx =
      (match s.flatten[idx]? with
       | some c => Except.ok c
       | none => Except.error "Constraint index is out of range!") := by
  obtain ⟨l1, l2, l3, l4, l5⟩ := s
  simp only [Constraints.index, Constraints.flatten]
  rw [if_neg (Nat.not_lt_zero idx)]
  by_cases h1 : idx < l1.length
  · rw [dif_pos h1, List.getElem?_append_left (by simpa using h1),
      List.getElem?_map, List.getElem?_eq_getElem h1]
    rfl
  · rw [dif_neg h1,
      List.getElem?_append_right (by simpa using Nat.le_of_not_lt h1)]
    simp only [List.length_map]
    by_cases h2 : idx - l1.length < l2.length
    · rw [dif_pos h2, List.getElem?_append_left (by simpa using h2),
        List.getElem?_map, List.getElem?_eq_getElem h2]
      rfl
    · rw [dif_neg h2,
        List.getElem?_append_right (by simpa using Nat.le_of_not_lt h2)]
      simp only [List.length_map]
      by_cases h3 : idx - l1.length - l2.length < l3.length
      · rw [dif_pos h3, List.getElem?_append_left (by simpa using h3),
          List.getElem?_map, List.getElem?_eq_getElem h3]
        rfl
      · rw [dif_neg h3,
          List.getElem?_append_right (by simpa using Nat.le_of_not_lt h3)]
        simp only [List.length_map]
        by_cases h4 : idx - l1.length - l2.length - l3.length < l4.length
        · rw [dif_pos h4, List.getElem?_append_left (by simpa using h4),
            List.getElem?_map, List.getElem?_eq_getElem h4]
          rfl
        · rw [dif_neg h4,
            List.getElem?_append_right (by simpa using Nat.le_of_not_lt h4)]
          simp only [List.length_map]
          by_cases h5 :
            idx - l1.length - l2.length - l3.length - l4.length < l5.length
          · rw [dif_pos h5, List.getElem?_map, List.getElem?_eq_getElem h5]
            rfl
          · rw [dif_neg h5,
              List.getElem?_eq_none (by simpa using Nat.le_of_not_lt h5)]

lemma indexMut_eq {P : Type} (s : Constraints P) (idx : ℕ) :
    s.indexMut idx = (s.index idx, s) := by
  simp only [Constraints.indexMut, Constraints.index]
  split_ifs <;> rfl

lemma index_error_iff {P : Type} (s : Constraints P) (idx : ℕ) :
    (∃ e, s.index idx = Except.error e) ↔ s.size ≤ idx := by
  rw [index_eq_flatten_lookup]
  rcases h : s.flatten[idx]? with _ | c
  · have hle := List.getElem?_eq_none_iff.mp h
    rw [flatten_length] at hle
    simp only [h]
    exact ⟨fun _ => hle, fun _ => ⟨_, rfl⟩⟩
  · simp only [h]
    constructor
    · rintro ⟨e, he⟩
      exact Except.noConfusion he
    · intro hle
      have hnone : s.flatten[idx]? = none :=
        List.getElem?_eq_none (by rw [flatten_length]; exact hle)
      rw [h] at hnone
      exact Option.noConfusion hnone

/-- **C6**: the flat indexing operator returns exactly the idx-th
element of the concatenation of the five sequences in the fixed order
VertexVertex, EdgeVertex, EdgeEdge, FaceVertex, PlaneVertex when
`idx < size()`, raises an out-of-range error exactly when
`idx ≥ size()` (in particular at `idx = size()`), and the raising call
leaves the container unchanged. -/
theorem C6_flat_index_traversal {P : Type} (s : Constraints P) (idx : ℕ) :
    (s.index idx =
      match s.flatten[idx]? with
      | some c => Except.ok c
      | none => Except.error "Constraint index is out of range!") ∧
    s.flatten.length = s.size ∧
    ((∃ e, s.index idx = Except.error e) ↔ s.size ≤ idx) ∧
    s.index s.size = Except.error "Constraint index is out of range!" ∧
    (s.indexMut idx).2 = s := by
  have hn : s.flatten[s.size]? = none :=
    List.getElem?_eq_none (by rw [flatten_length])
  refine ⟨index_eq_flatten_lookup s idx, flatten_length s,
    index_error_iff s idx, ?_, by rw [indexMut_eq]⟩
  rw [index_eq_flatten_lookup, hn]

/-- **C9**: the special-case branch for a negative index in the flat
indexing operator is dead: the index type is unsigned (ℕ), so
`idx < 0` is false for every value, the operator behaves identically
with the branch removed, and the only reachable failure is the final
bounds check against `size()`. -/
theorem C9_negative_index_branch_dead {P : Type} (s : Constraints P)
    (idx : ℕ) :
    ¬(idx < 0) ∧
    s.index idx = s.indexNoDeadBranch idx ∧
    ((∃ e, s.index idx = Except.error e) ↔ s.size ≤ idx) :=
  ⟨Nat.not_lt_zero idx,
   by
     simp only [Constraints.index, Constraints.indexNoDeadBranch]
     rw [if_neg (Nat.not_lt_zero idx)],
   index_error_iff s idx⟩

/-- **C10**: `empty()` holds iff all five sequences are empty, iff
`size() = 0`; after `clear()` the container is empty with zero size and
zero `num_constraints()`. -/
theorem C10_empty_size_clear {P : Type} (s : Constraints P) :
    (s.empty = true ↔ (s.vv_constraints = [] ∧ s.ev_constraints = [] ∧
      s.ee_constraints = [] ∧ s.fv_constraints = [] ∧
      s.pv_constraints = [])) ∧
    (s.empty = true ↔ s.size = 0) ∧
    (s.clear).empty = true ∧ (s.clear).size = 0 ∧
    (s.clear).num_constraints = 0 := by
  refine ⟨?_, ?_, rfl, rfl, rfl⟩
  · simp [Constraints.empty, Bool.and_eq_true, and_assoc]
  · simp [Constraints.empty, Constraints.size, Bool.and_eq_true, and_assoc,
      List.isEmpty_eq_true, Nat.add_eq_zero, List.length_eq_zero]

/-- **C8** (counterexample): at `s = 0`, `epsv = 1` (so `0 < epsv` and
`|s| < epsv`, the inside branch), the third smooth friction mollifier
function divides by `s·epsv² = 0`. -/
theorem C8_counterexample_f2_divides_by_zero :
    smooth_friction_f2_x_minus_f1_over_x3 0 1 = none ∧
    (0 : ℚ) < 1 ∧ |(0 : ℚ)| < 1 := by
  refine ⟨?_, by norm_num, by norm_num⟩
  norm_num [smooth_friction_f2_x_minus_f1_over_x3, cdiv]

/-- **C8** (amended): for every `epsv > 0`, on the inside branch
`|s| < epsv` the functions `f0` and `f1_over_x` perform no division by
zero (including at `s = 0`), while the third function
`(f1'(s)·s − f1(s))/s³` divides by `s·epsv²` and is division-by-zero
free exactly when `s ≠ 0`. -/
theorem C8_inside_branch_division_safety (s epsv : ℚ)
    (he : 0 < epsv) (hs : |s| < epsv) :
    (smooth_friction_f0 s epsv).isSome = true ∧
    (smooth_friction_f1_over_x s epsv).isSome = true ∧
    ((smooth_friction_f2_x_minus_f1_over_x3 s epsv).isSome = true ↔
      s ≠ 0) := by
  have hene : epsv ≠ 0 := ne_of_gt he
  have he2 : epsv ^ 2 ≠ 0 := pow_ne_zero 2 hene
  have he3 : (3 : ℚ) * epsv ^ 2 ≠ 0 := mul_ne_zero (by norm_num) he2
  refine ⟨?_, ?_, ?_⟩
  · simp [smooth_friction_f0, hs, cdiv, he3, hene]
  · simp [smooth_friction_f1_over_x, hs, cdiv, he2, hene]
  · by_cases hz : s = 0
    · simp [smooth_friction_f2_x_minus_f1_over_x3, hs, cdiv, hz]
    · have hne : s * epsv ^ 2 ≠ 0 := mul_ne_zero hz he2
      simp [smooth_friction_f2_x_minus_f1_over_x3, hs, cdiv, hne, hz]

/-- Witness for C8 at `s = 1/2`, `epsv = 1`. -/
theorem C8_inside_branch_division_safety_witness :
    ((0 : ℚ) < 1 ∧ |(1 / 2 : ℚ)| < 1) ∧
    ((smooth_friction_f0 (1 / 2) 1).isSome = true ∧
     (smooth_friction_f1_over_x (1 / 2) 1).isSome = true ∧
     ((smooth_friction_f2_x_minus_f1_over_x3 (1 / 2) 1).isSome = true ↔
       (1 / 2 : ℚ) ≠ 0)) :=
  ⟨⟨by norm_num, by rw [abs_lt]; constructor <;> norm_num⟩,
   C8_inside_branch_division_safety (1 / 2) 1 (by norm_num)
     (by rw [abs_lt]; constructor <;> norm_num)⟩
